import Mathlib

/-!
Verification development for the Pro Screen Recorder capture core.

The definitions below are a shallow embedding of the repository's recorder
hook (`useScreenRecorder`), its composition helpers (`setupVideoComposition`,
`mixAudioTracks`) and the mime negotiator (`getSupportedMimeType` in
`utils/helpers.ts`).  React refs become fields of an explicit `RecState`
record, asynchronous platform calls (`getDisplayMedia`, `getUserMedia`,
`new MediaRecorder`) are resolved through an explicit environment record,
and every externally visible action (stream requests, track stops, teardown
callback invocations, emitted files, ...) is logged in an event list so that
temporal properties ("stopped before the callback fires", "invoked exactly
once") can be stated over traces.  Wall-clock instants (`Date.now()`) are
integer milliseconds supplied explicitly; `x / 1000` with `Math.floor`
becomes `Int.fdiv`, and the float division producing the `duration` field is
kept in milliseconds (`durationMs`).
-/

namespace ProScreenRecorder

/-- `CaptureMode` from `types.ts`. -/
inductive CaptureMode
  | screenshot
  | screenVideo
  | audioOnly
  | screenAndCam
deriving DecidableEq, Repr

/-- The string value of each `CaptureMode` member, as written in `types.ts`;
`startRecording` tests `settings.mode.includes('screen')` on this string. -/
def CaptureMode.str : CaptureMode → String
  | .screenshot => "screenshot"
  | .screenVideo => "screen-video"
  | .audioOnly => "audio-only"
  | .screenAndCam => "screen-and-cam"

/-- `RecorderStatus` from `types.ts`. -/
inductive RecorderStatus
  | idle
  | permission
  | acquiring
  | recording
  | paused
  | stopped
  | error
deriving DecidableEq, Repr

/-- `VideoResolution` from `types.ts`. -/
inductive VideoResolution
  | auto | p720 | p1080 | p1440 | uhd4k
deriving DecidableEq, Repr

/-- `VideoBitratePreset` from `types.ts`. -/
inductive VideoBitratePreset
  | low | medium | high | custom
deriving DecidableEq, Repr

/-- `VideoContainer` from `types.ts`. -/
inductive VideoContainer
  | mp4 | webm
deriving DecidableEq, Repr

/-- `VideoCodec` from `types.ts`. -/
inductive VideoCodec
  | h264 | h265 | vp9 | av1
deriving DecidableEq, Repr

/-- `AudioBitratePreset` from `types.ts`. -/
inductive AudioBitratePreset
  | k128 | k192 | k320
deriving DecidableEq, Repr

/-- `AudioCodec` from `types.ts`. -/
inductive AudioCodec
  | aac | opus
deriving DecidableEq, Repr

/-- `ImageFormat` from `types.ts`. -/
inductive ImageFormat
  | png | jpeg
deriving DecidableEq, Repr

/-- The string value of each `ImageFormat` member. -/
def ImageFormat.str : ImageFormat → String
  | .png => "png"
  | .jpeg => "jpeg"

/-- `CaptureSettings` from `types.ts`.  `framerate` is the numeric union
`30 | 60` and `jpegQuality` the 0..1 float, kept as `Nat`/`Rat`. -/
structure CaptureSettings where
  mode : CaptureMode
  resolution : VideoResolution
  framerate : Nat
  videoBitrate : VideoBitratePreset
  customVideoBitrate : Nat
  container : VideoContainer
  videoCodec : VideoCodec
  includeMic : Bool
  includeSystemAudio : Bool
  audioBitrate : AudioBitratePreset
  audioCodec : AudioCodec
  imageFormat : ImageFormat
  jpegQuality : Rat
  cameraDeviceId : Option String
deriving DecidableEq, Repr

/-- Split a character list around the first occurrence of `pat`: the part
before it and the part after it, or `none` when `pat` does not occur. -/
def splitFirst (pat : List Char) : List Char → Option (List Char × List Char)
  | [] => if pat = [] then some ([], []) else none
  | c :: rest =>
    if pat.isPrefixOf (c :: rest) then some ([], (c :: rest).drop pat.length)
    else
      match splitFirst pat rest with
      | some (pre, post) => some (c :: pre, post)
      | none => none

/-- JavaScript `string.includes(pat)`: true iff `pat` occurs as a
substring. -/
def jsIncludes (s pat : String) : Bool :=
  (splitFirst pat.data s.data).isSome

/-- JavaScript `string.replace(pat, rep)` with a string pattern: replace the
first occurrence only. -/
def replaceFirst (s pat rep : String) : String :=
  match splitFirst pat.data s.data with
  | some (pre, post) => ⟨pre ++ rep.data ++ post⟩
  | none => s

/-- JavaScript `string.toLowerCase()` on the ASCII range. -/
def jsToLower (s : String) : String :=
  ⟨s.data.map Char.toLower⟩

/-- The host encoder platform seen by the negotiator: whether `MediaRecorder`
is defined at all, and its `isTypeSupported` capability predicate. -/
structure Platform where
  mediaRecorderDefined : Bool
  isTypeSupported : String → Bool

/-- The `isSupported` closure inside `getSupportedMimeType`: false when
`MediaRecorder` is undefined, otherwise `MediaRecorder.isTypeSupported`. -/
def isSupportedOn (p : Platform) (t : String) : Bool :=
  if p.mediaRecorderDefined = false then false else p.isTypeSupported t

/-- The audio-only candidate list of `getSupportedMimeType`. -/
def audioCandidates : List String :=
  ["audio/mp4; codecs=mp4a.40.2",
   "audio/mp4",
   "audio/webm; codecs=opus",
   "audio/webm",
   "audio/ogg; codecs=opus",
   "audio/ogg"]

/-- The video candidate list of `getSupportedMimeType`: the mp4-preference
block is prepended when the requested container is mp4, then the webm
preferences, then the last-resort generic mp4. -/
def videoCandidates (settings : CaptureSettings) : List String :=
  (if settings.container = VideoContainer.mp4 then
    ["video/mp4; codecs=\"avc1.42E01E, mp4a.40.2\"",
     "video/mp4; codecs=\"avc1.64001E, mp4a.40.2\"",
     "video/mp4",
     "video/webm; codecs=h264"]
   else []) ++
  ["video/webm; codecs=vp9",
   "video/webm; codecs=\"vp9,opus\"",
   "video/webm; codecs=vp8",
   "video/webm",
   "video/mp4"]

/-- The ordered candidate list `getSupportedMimeType` scans for the given
settings. -/
def mimeCandidates (settings : CaptureSettings) : List String :=
  if settings.mode = CaptureMode.audioOnly then audioCandidates
  else videoCandidates settings

/-- `getSupportedMimeType` from `utils/helpers.ts`: the first candidate the
platform reports as encodable, or the empty string. -/
def getSupportedMimeType (settings : CaptureSettings) (p : Platform) : String :=
  ((mimeCandidates settings).find? (isSupportedOn p)).getD ""

/-- A live media track, identified by an id so that "this very track was
stopped" is expressible. -/
inductive TrackKind
  | audio | video
deriving DecidableEq, Repr

/-- One device or synthesized media track. -/
structure MediaTrack where
  id : Nat
  kind : TrackKind
deriving DecidableEq, Repr

/-- A `MediaStream`: an ordered list of tracks. -/
structure MediaStream where
  tracks : List MediaTrack
deriving DecidableEq, Repr

/-- `stream.getTracks()`. -/
def MediaStream.getTracks (s : MediaStream) : List MediaTrack := s.tracks

/-- `stream.getVideoTracks()`. -/
def MediaStream.getVideoTracks (s : MediaStream) : List MediaTrack :=
  s.tracks.filter (fun t => t.kind = TrackKind.video)

/-- `stream.getAudioTracks()`. -/
def MediaStream.getAudioTracks (s : MediaStream) : List MediaTrack :=
  s.tracks.filter (fun t => t.kind = TrackKind.audio)

/-- A thrown JavaScript error, reduced to the `name` and `message` fields the
recorder's catch blocks inspect. -/
structure JsError where
  name : String
  message : String
deriving DecidableEq, Repr

/-- `MediaRecorder.state`. -/
inductive EncoderState
  | inactive | recording | paused
deriving DecidableEq, Repr

/-- The live `MediaRecorder` instance: its actually negotiated `mimeType`
and its state enum. -/
structure MediaRecorderHandle where
  mimeType : String
  state : EncoderState
deriving DecidableEq, Repr

/-- A teardown callback pushed onto `cleanupCallbacks`: the compositor's
(cancel the render loop, detach both playback surfaces) or the mixer's
(disconnect sources, close the audio context).  Neither stops any device
track, which is visible in the source of `setupVideoComposition` /
`mixAudioTracks`. -/
inductive Teardown
  | compositor | mixer
deriving DecidableEq, Repr

/-- A finished `CapturedFile`.  Timestamp-derived strings use the supplied
millisecond clock value; the float `duration` (seconds) is kept as exact
milliseconds. -/
structure CapturedFile where
  id : String
  name : String
  fileType : String
  blobType : String
  durationMs : Option Int
deriving DecidableEq, Repr

/-- Externally visible actions of the recorder, in program order. -/
inductive Event
  | reqDisplayMedia (video : Bool) (audio : Bool)
  | reqUserMediaAudio
  | reqUserMediaCamera (deviceId : Option String)
  | registerOnEnded (trackId : Nat)
  | stopTrack (trackId : Nat)
  | teardownRun (td : Teardown)
  | clearTimerInterval
  | setTimerInterval
  | encoderCreate (requestedMime : Option String)
  | encoderStart (timesliceMs : Nat)
  | encoderStopCmd
  | encoderPauseCmd
  | encoderResumeCmd
  | encodeImage (mime : String) (quality : Rat)
  | emitFile (f : CapturedFile)
  | warn (msg : String)
deriving DecidableEq, Repr

/-- The recorder hook's mutable state: React `useState` values (`status`,
`error`, `timer`) and every `useRef` cell. -/
structure RecState where
  status : RecorderStatus
  error : Option String
  timer : Int
  mediaRecorder : Option MediaRecorderHandle
  stream : Option MediaStream
  recordedChunks : List Nat
  timerIntervalActive : Bool
  captureMode : Option CaptureMode
  startTime : Int
  activeMimeType : String
  cleanupCallbacks : List Teardown
deriving DecidableEq, Repr

/-- The file a trace emits: projection of `Event.emitFile` occurrences. -/
def eventFile : Event → Option CapturedFile
  | Event.emitFile f => some f
  | _ => none

/-- All files emitted along a trace, in order. -/
def emittedFiles (evs : List Event) : List CapturedFile :=
  evs.filterMap eventFile

/-- `cleanup` from the hook: stop every track of the current stream, drop the
recorder, clear the timer interval, run and clear every registered teardown
callback, clear the chunk list and zero the displayed timer.
`activeMimeTypeRef` is deliberately not cleared (source comment). -/
def cleanup (s : RecState) : RecState × List Event :=
  let stopEvs := match s.stream with
    | some st => st.tracks.map (fun t => Event.stopTrack t.id)
    | none => []
  let intervalEvs := if s.timerIntervalActive then [Event.clearTimerInterval] else []
  let tdEvs := s.cleanupCallbacks.map Event.teardownRun
  ({ s with stream := none, mediaRecorder := none, timerIntervalActive := false,
            cleanupCallbacks := [], recordedChunks := [], timer := 0 },
   stopEvs ++ intervalEvs ++ tdEvs)

/-- `handleDataAvailable`: append each chunk with non-zero size. -/
def handleDataAvailable (size : Nat) (s : RecState) : RecState :=
  if size > 0 then { s with recordedChunks := s.recordedChunks ++ [size] } else s

/-- `startTimer`: reset the time origin to now and (re)install the 1 s tick
interval. -/
def startTimer (now : Int) (s : RecState) : RecState × List Event :=
  ({ s with startTime := now, timerIntervalActive := true }, [Event.setTimerInterval])

/-- `stopTimer`: clear the tick interval if installed. -/
def stopTimer (s : RecState) : RecState × List Event :=
  if s.timerIntervalActive then
    ({ s with timerIntervalActive := false }, [Event.clearTimerInterval])
  else (s, [])

/-- One firing of the interval callback installed by `startTimer`:
`setTimer(Math.floor((Date.now() - startTimeRef.current) / 1000))`. -/
def timerTick (now : Int) (s : RecState) : RecState :=
  if s.timerIntervalActive then { s with timer := (now - s.startTime).fdiv 1000 } else s

/-- The mime-type resolution inside `handleStop`: prefer the recorder's
actual `mimeType`; if absent or empty fall back to the requested one and
then to a per-mode default; finally, in audio-only mode rewrite a
video-typed string to the analogous audio one (first occurrence, as
JavaScript `replace` does). -/
def resolveMimeType (actualMime : Option String) (requested : String)
    (mode : Option CaptureMode) : String :=
  let m0 := actualMime.getD ""
  let m1 :=
    if m0 = "" then
      if mode = some CaptureMode.audioOnly then
        (if requested = "" then "audio/webm" else requested)
      else
        (if requested = "" then "video/webm" else requested)
    else m0
  if mode = some CaptureMode.audioOnly ∧ jsIncludes m1 "video" = true then
    replaceFirst m1 "video" "audio"
  else m1

/-- The extension derivation inside `handleStop`. -/
def deriveExtension (mime : String) (fileType : String) : String :=
  if jsIncludes mime "mp4" = true then
    (if fileType = "audio" then "m4a" else "mp4")
  else if jsIncludes mime "wav" = true then "wav"
  else if jsIncludes mime "ogg" = true then "ogg"
  else if jsIncludes mime "mp3" = true then "mp3"
  else if jsIncludes mime "x-matroska" = true then "mkv"
  else if jsIncludes mime "webm" = true then "webm"
  else "webm"

/-- `handleStop` (the recorder's `onstop` handler): with no chunks, warn,
transition to stopped and clean up; otherwise resolve the output mime type,
assemble the blob, compute the duration from the current time origin, emit
the `CapturedFile`, then transition to stopped and clean up. -/
def handleStop (now : Int) (s : RecState) : RecState × List Event :=
  if s.recordedChunks = [] then
    let warnEvs := if s.status ≠ RecorderStatus.error then [Event.warn "No data recorded."] else []
    let (s1, evs) := cleanup { s with status := RecorderStatus.stopped }
    (s1, warnEvs ++ evs)
  else
    let mime := resolveMimeType (s.mediaRecorder.map MediaRecorderHandle.mimeType)
      s.activeMimeType s.captureMode
    let fileType := if s.captureMode = some CaptureMode.audioOnly then "audio" else "video"
    let ext := deriveExtension mime fileType
    let file : CapturedFile :=
      { id := toString now,
        name := "recording-" ++ toString now ++ "." ++ ext,
        fileType := fileType,
        blobType := mime,
        durationMs := some (now - s.startTime) }
    let (s1, evs) := cleanup { s with status := RecorderStatus.stopped }
    (s1, Event.emitFile file :: evs)

/-- Resolutions of the asynchronous platform calls a `startRecording` run can
make, plus fresh track ids for the compositor's canvas capture track and the
mixer's destination track.  `newRecorder` is the outcome of
`new MediaRecorder(...)`: on success, the mime type the encoder actually
negotiated (which may differ from the requested one). -/
structure AcqEnv where
  displayMedia : Except JsError MediaStream
  camera : Except JsError MediaStream
  mic : Except JsError MediaStream
  compositeTrackId : Nat
  mixedTrackId : Nat
  newRecorder : Except JsError String
  platform : Platform

/-- `setupVideoComposition`: returns the canvas `captureStream(30)` stream
(one fresh video track) and the compositor teardown callback.  The teardown
cancels the render loop and detaches the playback surfaces; it stops no
device track. -/
def setupVideoComposition (env : AcqEnv) (_screen _camera : MediaStream) :
    MediaStream × Teardown :=
  (⟨[⟨env.compositeTrackId, TrackKind.video⟩]⟩, Teardown.compositor)

/-- `mixAudioTracks`: returns the mixing destination's single audio track and
the mixer teardown callback (disconnect sources, close the audio context; it
stops no device track). -/
def mixAudioTracks (env : AcqEnv) (_streams : List MediaStream) :
    MediaTrack × Teardown :=
  (⟨env.mixedTrackId, TrackKind.audio⟩, Teardown.mixer)

/-- The audio-mixing step shared by both screen-and-cam sub-branches: collect
the screen stream (when it has audio tracks) and the optional mic stream,
and when that list is non-empty invoke the mixer and register its teardown. -/
def combinedAudio (env : AcqEnv) (screenStream : MediaStream)
    (micStream : Option MediaStream) (s : RecState) :
    Option MediaTrack × RecState :=
  let toMix : List MediaStream :=
    (if screenStream.getAudioTracks ≠ [] then [screenStream] else []) ++
    (match micStream with | some m => [m] | none => [])
  if toMix = [] then (none, s)
  else
    let (track, td) := mixAudioTracks env toMix
    (some track, { s with cleanupCallbacks := s.cleanupCallbacks ++ [td] })

/-- The `TypeError` raised by assigning `onended` on
`stream.getVideoTracks()[0]` when the stream has no video track. -/
def onEndedTypeError : JsError :=
  ⟨"TypeError", "Cannot set properties of undefined (setting onended)"⟩

/-- The screen-and-cam acquisition branch of `startRecording`: screen stream
(fatal on failure), camera (non-fatal), microphone if requested (non-fatal),
then composition and audio mixing, then the `onended` auto-stop hookup on
the screen stream's first video track. -/
def acquireScreenAndCam (settings : CaptureSettings) (env : AcqEnv) (s : RecState) :
    RecState × List Event × Except JsError MediaStream :=
  match env.displayMedia with
  | .error e => (s, [Event.reqDisplayMedia true settings.includeSystemAudio], .error e)
  | .ok screenStream =>
    let evAcq := [Event.reqDisplayMedia true settings.includeSystemAudio,
                  Event.reqUserMediaCamera settings.cameraDeviceId]
    let cameraStream : Option MediaStream :=
      match env.camera with | .ok c => some c | .error _ => none
    let evCam : List Event :=
      match env.camera with
      | .ok _ => []
      | .error _ => [Event.warn "Could not acquire camera for composition:"]
    let micPair : Option MediaStream × List Event :=
      if settings.includeMic = true then
        match env.mic with
        | .ok m => (some m, [Event.reqUserMediaAudio])
        | .error _ =>
          (none, [Event.reqUserMediaAudio, Event.warn "Could not acquire microphone:"])
      else (none, [])
    let evs0 := evAcq ++ evCam ++ micPair.2
    let build : RecState × MediaStream :=
      match cameraStream with
      | some camStream =>
        let (videoStream, vidTd) := setupVideoComposition env screenStream camStream
        let s1 := { s with cleanupCallbacks := s.cleanupCallbacks ++ [vidTd] }
        let (combined, s2) := combinedAudio env screenStream micPair.1 s1
        let tracks := videoStream.getVideoTracks ++
          (match combined with | some t => [t] | none => [])
        (s2, ⟨tracks⟩)
      | none =>
        let (combined, s2) := combinedAudio env screenStream micPair.1 s
        let tracks := screenStream.getVideoTracks ++
          (match combined with | some t => [t] | none => [])
        (s2, ⟨tracks⟩)
    match screenStream.getVideoTracks with
    | [] => (build.1, evs0, .error onEndedTypeError)
    | t :: _ => (build.1, evs0 ++ [Event.registerOnEnded t.id], .ok build.2)

/-- The standard-mode acquisition branch of `startRecording`: microphone only
when explicitly requested or mandatory (audio-only, where its failure is
fatal); then the screen stream when the mode string contains `screen`
(stopping any acquired mic tracks before propagating its failure), the
`onended` hookup, and assembly of all acquired tracks. -/
def acquireStandard (settings : CaptureSettings) (env : AcqEnv) (s : RecState) :
    RecState × List Event × Except JsError MediaStream :=
  let micRes : Option MediaStream × List Event × Option JsError :=
    if settings.includeMic = true ∨ settings.mode = CaptureMode.audioOnly then
      match env.mic with
      | .ok a => (some a, [Event.reqUserMediaAudio], none)
      | .error e =>
        if settings.mode = CaptureMode.audioOnly then
          (none, [Event.reqUserMediaAudio], some e)
        else
          (none, [Event.reqUserMediaAudio,
                  Event.warn "Microphone access failed or was denied. Proceeding without microphone."],
           none)
    else (none, [], none)
  match micRes with
  | (_, evs, some e) => (s, evs, .error e)
  | (audioStream, evsMic, none) =>
    if jsIncludes settings.mode.str "screen" = true then
      match env.displayMedia with
      | .error e =>
        let stopEvs := match audioStream with
          | some a => a.tracks.map (fun t => Event.stopTrack t.id)
          | none => []
        (s, evsMic ++ [Event.reqDisplayMedia true settings.includeSystemAudio] ++ stopEvs,
         .error e)
      | .ok videoStream =>
        match videoStream.getVideoTracks with
        | [] => (s, evsMic ++ [Event.reqDisplayMedia true settings.includeSystemAudio],
                 .error onEndedTypeError)
        | t :: _ =>
          let tracks := videoStream.getTracks ++
            (match audioStream with | some a => a.getTracks | none => [])
          if tracks = [] then
            (s, evsMic ++ [Event.reqDisplayMedia true settings.includeSystemAudio,
                           Event.registerOnEnded t.id],
             .error ⟨"Error", "No media tracks were acquired."⟩)
          else
            (s, evsMic ++ [Event.reqDisplayMedia true settings.includeSystemAudio,
                           Event.registerOnEnded t.id],
             .ok ⟨tracks⟩)
    else
      let tracks := match audioStream with | some a => a.getTracks | none => []
      if tracks = [] then (s, evsMic, .error ⟨"Error", "No media tracks were acquired."⟩)
      else (s, evsMic, .ok ⟨tracks⟩)

/-- Acquisition dispatch of `startRecording` on the capture mode. -/
def acquireStreams (settings : CaptureSettings) (env : AcqEnv) (s : RecState) :
    RecState × List Event × Except JsError MediaStream :=
  if settings.mode = CaptureMode.screenAndCam then acquireScreenAndCam settings env s
  else acquireStandard settings env s

/-- The tail of `startRecording`'s try block: store the final stream,
negotiate and remember the requested mime type, construct the encoder
(which can throw), start it with a 1 s timeslice, start the elapsed-time
clock and become `recording`. -/
def startEncoderAndTimer (settings : CaptureSettings) (env : AcqEnv) (now : Int)
    (finalStream : MediaStream) (s : RecState) :
    RecState × List Event × Option JsError :=
  let s1 := { s with stream := some finalStream }
  let mime := getSupportedMimeType settings env.platform
  let s2 := { s1 with activeMimeType := mime }
  let optMime : Option String := if mime = "" then none else some mime
  match env.newRecorder with
  | .error e => (s2, [Event.encoderCreate optMime], some e)
  | .ok actualMime =>
    let s3 := { s2 with mediaRecorder := some ⟨actualMime, EncoderState.recording⟩ }
    let (s4, evT) := startTimer now s3
    ({ s4 with status := RecorderStatus.recording },
     [Event.encoderCreate optMime, Event.encoderStart 1000] ++ evT, none)

/-- The whole try block of `startRecording`: acquisition then encoder/timer
start, reporting the first thrown error (with the state as mutated so far:
teardown callbacks registered before the throw stay registered, exactly as
the shared `cleanupCallbacks` ref does). -/
def startAttempt (settings : CaptureSettings) (env : AcqEnv) (now : Int) (s2 : RecState) :
    RecState × List Event × Option JsError :=
  match acquireStreams settings env s2 with
  | (s3, evA, Except.error e) => (s3, evA, some e)
  | (s3, evA, Except.ok finalStream) =>
    match startEncoderAndTimer settings env now finalStream s3 with
    | (s4, evE, r) => (s4, evA ++ evE, r)

/-- The state as `startRecording` leaves it after passing the re-entrancy
guard: previous session cleaned, status `acquiring`, error cleared, capture
mode recorded. -/
def acquiringStateOf (settings : CaptureSettings) (s : RecState) : RecState :=
  { (cleanup s).1 with status := RecorderStatus.acquiring, error := none,
                       captureMode := some settings.mode }

/-- The catch block of `startRecording`: clean up, then either return
silently to idle on a recognized permission denial / cancellation, or
surface the message and enter the error state. -/
def isPermissionError (e : JsError) : Bool :=
  decide (e.name = "NotAllowedError") ||
  decide (e.name = "PermissionDeniedError") ||
  jsIncludes (jsToLower e.message) "permission denied" ||
  jsIncludes (jsToLower e.message) "user denied" ||
  jsIncludes (jsToLower e.message) "declined" ||
  jsIncludes (jsToLower e.message) "cancelled"

/-- The catch block of `startRecording` applied to the error `e` thrown with
in-try state `s` and the events `evs` accumulated so far. -/
def handleStartError (e : JsError) (s : RecState) (evs : List Event) :
    RecState × List Event :=
  let (s1, evCl) := cleanup s
  if isPermissionError e = true then
    ({ s1 with status := RecorderStatus.idle }, evs ++ evCl)
  else
    ({ s1 with status := RecorderStatus.error,
               error := some ("Failed to start recording: " ++ e.message) },
     evs ++ evCl)

/-- `startRecording`: rejected as a no-op while already acquiring or
recording; otherwise clean the previous state, enter `acquiring` and run the
try block, routing any thrown error through the catch block. -/
def startRecording (settings : CaptureSettings) (env : AcqEnv) (now : Int)
    (s : RecState) : RecState × List Event :=
  if s.status = RecorderStatus.recording ∨ s.status = RecorderStatus.acquiring then
    (s, [])
  else
    match startAttempt settings env now (acquiringStateOf settings s) with
    | (s3, evA, none) => (s3, (cleanup s).2 ++ evA)
    | (s3, evA, some e) => handleStartError e s3 ((cleanup s).2 ++ evA)

/-- Whether `mediaRecorderRef.current` exists with state other than
`inactive`. -/
def recorderActive (s : RecState) : Bool :=
  match s.mediaRecorder with
  | some r => decide (r.state ≠ EncoderState.inactive)
  | none => false

/-- `stopRecording`: stop the active encoder (firing `handleStop`) and the
timer; with no active encoder but a recording/paused status, fall back to a
direct cleanup-and-stop. -/
def stopRecording (now : Int) (s : RecState) : RecState × List Event :=
  if recorderActive s = true then
    let (s1, ev1) := stopTimer s
    let (s2, ev2) := handleStop now s1
    (s2, Event.encoderStopCmd :: (ev1 ++ ev2))
  else if s.status = RecorderStatus.recording ∨ s.status = RecorderStatus.paused then
    let (s1, ev) := cleanup s
    ({ s1 with status := RecorderStatus.stopped }, ev)
  else (s, [])

/-- `pauseRecording`: with a recorder present and status `recording`, pause
the encoder, stop the tick interval and become `paused`. -/
def pauseRecording (s : RecState) : RecState × List Event :=
  match s.mediaRecorder with
  | some r =>
    if s.status = RecorderStatus.recording then
      let s1 := { s with mediaRecorder := some { r with state := EncoderState.paused } }
      let (s2, evT) := stopTimer s1
      ({ s2 with status := RecorderStatus.paused }, Event.encoderPauseCmd :: evT)
    else (s, [])
  | none => (s, [])

/-- `resumeRecording`: with a recorder present and status `paused`, resume
the encoder, set the time origin back by the accumulated seconds, then call
`startTimer` — which, as in the source, overwrites that origin with the
current instant — and become `recording`. -/
def resumeRecording (now : Int) (s : RecState) : RecState × List Event :=
  match s.mediaRecorder with
  | some r =>
    if s.status = RecorderStatus.paused then
      let s1 := { s with mediaRecorder := some { r with state := EncoderState.recording },
                         startTime := now - s.timer * 1000 }
      let (s2, evT) := startTimer now s1
      ({ s2 with status := RecorderStatus.recording }, Event.encoderResumeCmd :: evT)
    else (s, [])
  | none => (s, [])

/-- The `Partial<CaptureSettings>` a screenshot call receives: the only
fields `takeScreenshot` reads. -/
structure ScreenshotSettings where
  imageFormat : Option ImageFormat
  jpegQuality : Option Rat
deriving DecidableEq, Repr

/-- Resolutions of the platform calls a `takeScreenshot` run makes. -/
structure ScreenshotEnv where
  displayMedia : Except JsError MediaStream
  videoWidth : Nat
  videoHeight : Nat
  contextOk : Bool
  toBlobOk : Bool
deriving Repr

/-- The permission/cancellation test in `takeScreenshot`'s catch block (note:
narrower than the recording one — only the two error names and the
`permission denied` phrase). -/
def isScreenshotCancel (e : JsError) : Bool :=
  decide (e.name = "NotAllowedError") ||
  decide (e.name = "PermissionDeniedError") ||
  jsIncludes (jsToLower e.message) "permission denied"

/-- `takeScreenshot`'s catch block: stop the stream's tracks if it is still
live, swallow a recognized cancellation silently, otherwise surface a
transient error message; the recording state machine is untouched. -/
def screenshotCatch (e : JsError) (liveTracks : List MediaTrack)
    (s : RecState) (evs : List Event) : RecState × List Event :=
  let stopEvs := liveTracks.map (fun t => Event.stopTrack t.id)
  if isScreenshotCancel e = true then (s, evs ++ stopEvs)
  else ({ s with error := some ("Screenshot failed: " ++ e.message) }, evs ++ stopEvs)

/-- `takeScreenshot`: acquire a video-only screen stream, wait for a frame,
draw it to a canvas sized to the frame, stop the stream's tracks, encode the
canvas with the requested image format and quality, and emit exactly one
`CapturedFile` of kind image with no duration. -/
def takeScreenshot (settings : ScreenshotSettings) (env : ScreenshotEnv) (now : Int)
    (s : RecState) : RecState × List Event :=
  let ev0 := [Event.reqDisplayMedia true false]
  match env.displayMedia with
  | .error e => screenshotCatch e [] s ev0
  | .ok stream =>
    if env.contextOk = false then
      screenshotCatch ⟨"Error", "Could not get canvas context"⟩ stream.tracks s ev0
    else
      let stopEvs := stream.tracks.map (fun t => Event.stopTrack t.id)
      let mime := if settings.imageFormat = some ImageFormat.jpeg
        then "image/jpeg" else "image/png"
      let quality := settings.jpegQuality.getD ((9 : Rat) / 10)
      let evEnc := [Event.encodeImage mime quality]
      if env.toBlobOk = false then
        screenshotCatch ⟨"Error", "Failed to create blob from canvas."⟩ []
          s (ev0 ++ stopEvs ++ evEnc)
      else
        let extStr := match settings.imageFormat with
          | some f => f.str
          | none => "png"
        let file : CapturedFile :=
          { id := toString now,
            name := "screenshot-" ++ toString now ++ "." ++ extStr,
            fileType := "image",
            blobType := mime,
            durationMs := none }
        (s, ev0 ++ stopEvs ++ evEnc ++ [Event.emitFile file])

/-! ## Concrete sample states, environments and traces -/

/-- The hook's initial state: all `useState` initials and `useRef` initials. -/
def idleState : RecState :=
  { status := RecorderStatus.idle, error := none, timer := 0, mediaRecorder := none,
    stream := none, recordedChunks := [], timerIntervalActive := false,
    captureMode := none, startTime := 0, activeMimeType := "", cleanupCallbacks := [] }

/-- A platform that supports exactly the plain `video/webm` container. -/
def webmPlatform : Platform :=
  ⟨true, fun t => decide (t = "video/webm")⟩

/-- Screen-video settings: no microphone, no system audio. -/
def svSettings : CaptureSettings :=
  { mode := CaptureMode.screenVideo, resolution := VideoResolution.auto, framerate := 30,
    videoBitrate := VideoBitratePreset.medium, customVideoBitrate := 8,
    container := VideoContainer.webm, videoCodec := VideoCodec.vp9, includeMic := false,
    includeSystemAudio := false, audioBitrate := AudioBitratePreset.k128,
    audioCodec := AudioCodec.opus, imageFormat := ImageFormat.png,
    jpegQuality := (9 : Rat) / 10, cameraDeviceId := none }

/-- An environment granting a screen stream with one video track (id 1). -/
def svEnv : AcqEnv :=
  { displayMedia := Except.ok ⟨[⟨1, TrackKind.video⟩]⟩,
    camera := Except.error ⟨"NotFoundError", "no camera"⟩,
    mic := Except.error ⟨"NotFoundError", "no mic"⟩,
    compositeTrackId := 10, mixedTrackId := 11,
    newRecorder := Except.ok "video/webm", platform := webmPlatform }

/-- Screen-and-cam settings with microphone and system audio enabled. -/
def scSettings : CaptureSettings :=
  { svSettings with mode := CaptureMode.screenAndCam, includeMic := true,
                    includeSystemAudio := true }

/-- An environment granting every prompt of a screen-and-cam session: screen
stream with video track 1 and system-audio track 2, camera stream with track
3, microphone stream with track 4; compositor canvas track 10, mixer
destination track 11. -/
def scEnv : AcqEnv :=
  { displayMedia := Except.ok ⟨[⟨1, TrackKind.video⟩, ⟨2, TrackKind.audio⟩]⟩,
    camera := Except.ok ⟨[⟨3, TrackKind.video⟩]⟩,
    mic := Except.ok ⟨[⟨4, TrackKind.audio⟩]⟩,
    compositeTrackId := 10, mixedTrackId := 11,
    newRecorder := Except.ok "video/webm", platform := webmPlatform }

/-- A fully granted screen-and-cam session started at t = 0 ms. -/
def scRun : RecState × List Event := startRecording scSettings scEnv 0 idleState

/-- Explicit stop of that session at t = 5000 ms. -/
def scStopRun : RecState × List Event := stopRecording 5000 scRun.1

/-- The complete event trace of the screen-and-cam session. -/
def scTrace : List Event := scRun.2 ++ scStopRun.2

/-- Screen-video session started at t = 0 ms (for the timer traces). -/
def c6s1 : RecState := (startRecording svSettings svEnv 0 idleState).1

/-- ... after the interval tick at t = 5000 ms (displayed timer 5 s). -/
def c6s2 : RecState := timerTick 5000 c6s1

/-- ... paused at that point. -/
def c6s3 : RecState := (pauseRecording c6s2).1

/-- ... resumed at t = 9000 ms. -/
def c6s4 : RecState := (resumeRecording 9000 c6s3).1

/-- ... after the first interval tick following the resume, at t = 10000 ms. -/
def c6s5 : RecState := timerTick 10000 c6s4

/-- Duration trace: session started at t = 0, one 1000-byte chunk recorded,
tick at 5000 ms. -/
def c7s2 : RecState := handleDataAvailable 1000 (timerTick 5000 c6s1)

/-- ... tick at 6000 ms (timer 6 s) then paused at t = 6000 ms. -/
def c7s3 : RecState := (pauseRecording (timerTick 6000 c7s2)).1

/-- ... resumed at t = 10000 ms. -/
def c7s4 : RecState := (resumeRecording 10000 c7s3).1

/-- ... stopped at t = 13000 ms: 6 s recorded before the pause plus 3 s
after the resume, i.e. 9 s of active recording time. -/
def c7StopRun : RecState × List Event := stopRecording 13000 c7s4

/-- The same session instead stopped at t = 65000 ms while still paused:
6 s of active recording time followed by 59 s of pause. -/
def c7PausedStopRun : RecState × List Event := stopRecording 65000 c7s3

/-- A state mid-session: live composite stream, registered teardown
callbacks, running timer. -/
def busyState : RecState :=
  { status := RecorderStatus.recording, error := none, timer := 7,
    mediaRecorder := some ⟨"video/webm", EncoderState.recording⟩,
    stream := some ⟨[⟨10, TrackKind.video⟩, ⟨11, TrackKind.audio⟩]⟩,
    recordedChunks := [512, 1024], timerIntervalActive := true,
    captureMode := some CaptureMode.screenAndCam, startTime := 42,
    activeMimeType := "video/webm",
    cleanupCallbacks := [Teardown.compositor, Teardown.mixer] }

/-! ## Claims -/

/-- **C1.** A `startRecording` call made while the controller's status is
`acquiring` or `recording` is a rejected no-op: the state (status, error
message, timer value, stream, encoder instance, chunk list and registered
teardown callbacks) is returned unchanged and no external action (no
acquisition request, no emitted file, no teardown) is performed, so the new
session is rejected rather than queued. -/
theorem C1_start_while_active_is_noop (settings : CaptureSettings) (env : AcqEnv)
    (now : Int) (s : RecState)
    (h : s.status = RecorderStatus.acquiring ∨ s.status = RecorderStatus.recording) :
    startRecording settings env now s = (s, []) := by
  unfold startRecording
  rcases h with h | h <;> simp [h]

/-- Witness for C1 at a concrete mid-recording state. -/
theorem C1_start_while_active_is_noop_witness :
    (busyState.status = RecorderStatus.acquiring ∨
      busyState.status = RecorderStatus.recording) ∧
    startRecording scSettings scEnv 99 busyState = (busyState, []) :=
  ⟨Or.inr rfl, C1_start_while_active_is_noop scSettings scEnv 99 busyState (Or.inr rfl)⟩

/-- **C2 (refuting the claim as stated).**  In a fully granted
screen-and-cam session the controller acquires the raw screen stream
(video track 1, system-audio track 2), the camera stream (track 3) and the
microphone stream (track 4), yet across the entire session trace — start
followed by an explicit stop — none of those device tracks is ever stopped:
`cleanup` only stops the composite canvas track (10) and the mixer
destination track (11), and the compositor/mixer teardown callbacks (which
do run, exactly once each) stop no device track either.  Live device tracks
therefore remain after the session ends, contradicting the claim that every
acquired device track is stopped on every session-ending path. -/
theorem C2_screen_and_cam_leaves_device_tracks_live :
    Event.reqDisplayMedia true true ∈ scTrace ∧
    Event.reqUserMediaCamera none ∈ scTrace ∧
    Event.reqUserMediaAudio ∈ scTrace ∧
    scRun.1.stream = some ⟨[⟨10, TrackKind.video⟩, ⟨11, TrackKind.audio⟩]⟩ ∧
    Event.stopTrack 1 ∉ scTrace ∧
    Event.stopTrack 2 ∉ scTrace ∧
    Event.stopTrack 3 ∉ scTrace ∧
    Event.stopTrack 4 ∉ scTrace ∧
    Event.stopTrack 10 ∈ scTrace ∧
    Event.stopTrack 11 ∈ scTrace ∧
    scTrace.count (Event.teardownRun Teardown.compositor) = 1 ∧
    scTrace.count (Event.teardownRun Teardown.mixer) = 1 ∧
    scStopRun.1.status = RecorderStatus.stopped := by decide

/-- **C6 (refuting the claim as stated).**  Pause/resume does not preserve
the elapsed-time clock: in a session started at t = 0, ticked to 5 s,
paused, and resumed at t = 9000 ms, `resumeRecording` first sets the time
origin back by the accumulated 5 s (to 4000) but its call to `startTimer`
immediately overwrites the origin with the current instant (9000), so the
first tick after the resume displays 1 s, not 6 s: the clock restarts from
zero rather than resuming from the previously accumulated value. -/
theorem C6_timer_restarts_after_resume :
    c6s2.timer = 5 ∧
    c6s3.status = RecorderStatus.paused ∧ c6s3.timer = 5 ∧
    c6s4.status = RecorderStatus.recording ∧ c6s4.timer = 5 ∧
    c6s4.startTime = 9000 ∧
    c6s5.timer = 1 ∧ c6s5.timer ≠ 6 := by decide

/-- **C7 (refuting the claim as stated).**  The emitted duration is not the
pause-excluded accumulated recording time: a session with 6 s of recording,
a 4 s pause, and 3 s more recording (9 s active in total) reports a
duration of 3000 ms, because the resume clobbered the time origin; and the
same session stopped while still paused at t = 65000 ms reports 65000 ms
although only 6 s were ever actively recorded, because the final pause span
is included. -/
theorem C7_duration_not_pause_adjusted :
    emittedFiles c7StopRun.2 =
      [{ id := "13000", name := "recording-13000.webm", fileType := "video",
         blobType := "video/webm", durationMs := some 3000 }] ∧
    emittedFiles c7PausedStopRun.2 =
      [{ id := "65000", name := "recording-65000.webm", fileType := "video",
         blobType := "video/webm", durationMs := some 65000 }] := by decide

/-- **C8.** `cleanup` is idempotent: a second invocation right after a first
one performs no external action (in particular no teardown callback is
invoked a second time) and leaves the state unchanged; and invoking it on a
state with nothing active (no stream, no interval, no callbacks, no chunks,
timer 0, no encoder) changes nothing and performs nothing. -/
theorem C8_cleanup_idempotent :
    (∀ s : RecState, cleanup (cleanup s).1 = ((cleanup s).1, ([] : List Event))) ∧
    (∀ s : RecState, s.stream = none → s.mediaRecorder = none →
      s.timerIntervalActive = false → s.cleanupCallbacks = [] →
      s.recordedChunks = [] → s.timer = 0 →
      cleanup s = (s, [])) := by
  constructor
  · intro s
    rfl
  · intro s h1 h2 h3 h4 h5 h6
    cases s
    simp_all [cleanup]

/-- Witness for C8: double cleanup from a busy state, and cleanup of the
pristine idle state. -/
theorem C8_cleanup_idempotent_witness :
    cleanup (cleanup busyState).1 = ((cleanup busyState).1, ([] : List Event)) ∧
    cleanup idleState = (idleState, []) :=
  ⟨C8_cleanup_idempotent.1 busyState,
   C8_cleanup_idempotent.2 idleState rfl rfl rfl rfl rfl rfl⟩

/-- Characterization of a successful `List.find?`: the found element
satisfies the predicate and everything strictly before it fails it. -/
theorem find_first_split {α : Type} (p : α → Bool) :
    ∀ (l : List α) (a : α), l.find? p = some a →
      p a = true ∧ ∃ l1 l2, l = l1 ++ a :: l2 ∧ ∀ b ∈ l1, p b = false := by
  intro l
  induction l with
  | nil => intro a h; simp [List.find?] at h
  | cons x xs ih =>
    intro a h
    cases hpx : p x with
    | true =>
      rw [List.find?_cons_of_pos _ hpx] at h
      obtain rfl : x = a := by injection h
      exact ⟨hpx, [], xs, rfl, by simp⟩
    | false =>
      rw [List.find?_cons_of_neg _ (by simp [hpx])] at h
      obtain ⟨hpa, l1, l2, heq, hall⟩ := ih a h
      refine ⟨hpa, x :: l1, l2, by simp [heq], ?_⟩
      intro b hb
      rcases List.mem_cons.mp hb with rfl | hb
      · exact hpx
      · exact hall b hb

/-- `List.find?` only depends on the predicate's values on the list. -/
theorem find_congr_on {α : Type} (p q : α → Bool) :
    ∀ l : List α, (∀ a ∈ l, p a = q a) → l.find? p = l.find? q := by
  intro l
  induction l with
  | nil => intro _; rfl
  | cons x xs ih =>
    intro h
    have hx := h x (by simp)
    cases hqx : q x with
    | true =>
      rw [List.find?_cons_of_pos _ (hx.trans hqx), List.find?_cons_of_pos _ hqx]
    | false =>
      rw [List.find?_cons_of_neg _ (by simp [hx, hqx]),
          List.find?_cons_of_neg _ (by simp [hqx])]
      exact ih (fun a ha => h a (by simp [ha]))

/-- **C5.** For every settings value, `getSupportedMimeType`'s result is
completely characterized by the platform's capability answers on its
mode-specific ordered candidate list: when no candidate is supported
(including when the encoder platform is entirely absent) the result is the
empty string, and otherwise the result *equals* the first supported
candidate — the list splits as `l1 ++ r :: l2` with every element of `l1`
unsupported, `r` supported, and the result equal to `r`; so whenever some
candidate is supported the negotiator does return it, and it never returns
a string outside the candidate list or an unsupported one.  And it is
deterministic: any two platforms with identical capability answers on the
candidate list give the same result. -/
theorem C5_mime_negotiator (settings : CaptureSettings) (p : Platform) :
    (((∀ c ∈ mimeCandidates settings, isSupportedOn p c = false) ∧
        getSupportedMimeType settings p = "") ∨
      (∃ l1 r l2, mimeCandidates settings = l1 ++ r :: l2 ∧
        isSupportedOn p r = true ∧ (∀ c ∈ l1, isSupportedOn p c = false) ∧
        getSupportedMimeType settings p = r)) ∧
    (p.mediaRecorderDefined = false → getSupportedMimeType settings p = "") ∧
    (∀ p2 : Platform,
      (∀ t ∈ mimeCandidates settings, isSupportedOn p t = isSupportedOn p2 t) →
      getSupportedMimeType settings p = getSupportedMimeType settings p2) := by
  refine ⟨?_, ?_, ?_⟩
  · cases hf : (mimeCandidates settings).find? (isSupportedOn p) with
    | none =>
      left
      refine ⟨?_, by simp [getSupportedMimeType, hf]⟩
      intro c hc
      have := List.find?_eq_none.mp hf c hc
      simpa using this
    | some a =>
      right
      obtain ⟨hpa, l1, l2, heq, hall⟩ := find_first_split _ _ _ hf
      have hval : getSupportedMimeType settings p = a := by
        simp [getSupportedMimeType, hf]
      exact ⟨l1, a, l2, heq, hpa, hall, hval⟩
  · intro hnd
    have hfalse : ∀ c ∈ mimeCandidates settings, isSupportedOn p c = false := by
      intro c _; simp [isSupportedOn, hnd]
    have hnone : (mimeCandidates settings).find? (isSupportedOn p) = none :=
      List.find?_eq_none.mpr (fun x hx => by simp [hfalse x hx])
    simp [getSupportedMimeType, hnone]
  · intro p2 hsame
    simp [getSupportedMimeType, find_congr_on _ _ _ hsame]

/-- A second platform with the same answers as `webmPlatform` on every
candidate list but different answers elsewhere (it also accepts
`image/png`). -/
def webmPlatform2 : Platform :=
  ⟨true, fun t => decide (t = "video/webm") || decide (t = "image/png")⟩

/-- Witness for C5: on the webm-container screen-video settings against a
platform supporting exactly `video/webm`, the negotiator picks
`video/webm`, and the extensionally equal platform `webmPlatform2` gives
the same answer. -/
theorem C5_mime_negotiator_witness :
    getSupportedMimeType svSettings webmPlatform = "video/webm" ∧
    getSupportedMimeType svSettings webmPlatform =
      getSupportedMimeType svSettings webmPlatform2 :=
  ⟨by decide, (C5_mime_negotiator svSettings webmPlatform).2.2 webmPlatform2 (by decide)⟩

/-- The finalization format rule as the spec words it: prefer the encoder's
actually negotiated format when non-empty, fall back to the requested one,
then to a per-mode safe default; in audio-only mode rewrite a video-typed
resolved format to the analogous audio type. -/
def specResolvedFormat (actual requested : String) (isAudioMode : Bool) : String :=
  let base :=
    if actual ≠ "" then actual
    else if requested ≠ "" then requested
    else if isAudioMode = true then "audio/webm" else "video/webm"
  if isAudioMode = true ∧ jsIncludes base "video" = true then
    replaceFirst base "video" "audio"
  else base

/-- The extension rule as the spec words it: substring match on the resolved
format — mp4 gives mp4 or m4a depending on audio/video kind, wav/ogg/mp3
verbatim, x-matroska gives mkv, webm is the ultimate default. -/
def specFileExtension (resolved : String) (isAudioMode : Bool) : String :=
  if jsIncludes resolved "mp4" = true then (if isAudioMode = true then "m4a" else "mp4")
  else if jsIncludes resolved "wav" = true then "wav"
  else if jsIncludes resolved "ogg" = true then "ogg"
  else if jsIncludes resolved "mp3" = true then "mp3"
  else if jsIncludes resolved "x-matroska" = true then "mkv"
  else "webm"

/-- The code's mime resolution agrees with the spec's wording of it. -/
theorem resolveMimeType_eq_spec (actual : Option String) (requested : String)
    (mode : Option CaptureMode) :
    resolveMimeType actual requested mode =
      specResolvedFormat (actual.getD "") requested
        (decide (mode = some CaptureMode.audioOnly)) := by
  unfold resolveMimeType specResolvedFormat
  by_cases h0 : actual.getD "" = "" <;>
    by_cases hm : mode = some CaptureMode.audioOnly <;>
      by_cases hr : requested = "" <;>
        simp [h0, hm, hr]

/-- The code's extension derivation agrees with the spec's wording of it. -/
theorem deriveExtension_eq_spec (mime : String) (isAudioMode : Bool) :
    deriveExtension mime (if isAudioMode = true then "audio" else "video") =
      specFileExtension mime isAudioMode := by
  unfold deriveExtension specFileExtension
  cases isAudioMode <;> simp

/-- With a non-empty actual format, the resolved format does not depend on
the requested one. -/
theorem specResolvedFormat_ignores_requested (actual r1 r2 : String) (b : Bool)
    (h : actual ≠ "") :
    specResolvedFormat actual r1 b = specResolvedFormat actual r2 b := by
  unfold specResolvedFormat
  simp [h]

/-- `cleanup` emits no file. -/
theorem emittedFiles_cleanup (s : RecState) : emittedFiles (cleanup s).2 = [] := by
  unfold cleanup emittedFiles
  cases hs : s.stream <;> cases hti : s.timerIntervalActive <;>
    simp [eventFile, List.filterMap_append, List.filterMap_map, Function.comp,
          List.filterMap_eq_nil_iff]

/-- With at least one chunk, `handleStop` emits exactly the file whose
format and extension follow the spec's resolution rule. -/
theorem handleStop_emits (now : Int) (s : RecState) (hch : s.recordedChunks ≠ []) :
    emittedFiles (handleStop now s).2 =
      [{ id := toString now,
         name := "recording-" ++ toString now ++ "." ++
           specFileExtension
             (specResolvedFormat ((s.mediaRecorder.map MediaRecorderHandle.mimeType).getD "")
               s.activeMimeType (decide (s.captureMode = some CaptureMode.audioOnly)))
             (decide (s.captureMode = some CaptureMode.audioOnly)),
         fileType := if s.captureMode = some CaptureMode.audioOnly then "audio" else "video",
         blobType := specResolvedFormat
           ((s.mediaRecorder.map MediaRecorderHandle.mimeType).getD "")
           s.activeMimeType (decide (s.captureMode = some CaptureMode.audioOnly)),
         durationMs := some (now - s.startTime) }] := by
  unfold handleStop
  rw [if_neg hch]
  simp only [emittedFiles, List.filterMap_cons, eventFile]
  rw [← emittedFiles_cleanup { s with status := RecorderStatus.stopped }]
  simp only [emittedFiles]
  congr 1
  rw [resolveMimeType_eq_spec]
  by_cases hm : s.captureMode = some CaptureMode.audioOnly <;>
    simp [hm, ← deriveExtension_eq_spec]

/-- **C3.** When `handleStop` finalizes a recording with at least one chunk,
the blob's format string and the derived file extension follow the spec's
resolution rule (`specResolvedFormat` / `specFileExtension`): the encoder's
actually negotiated mime type is preferred when non-empty, with fallback to
the requested format and then a per-mode safe default, the audio-only
video→audio rewrite, and the substring-matched extension table; moreover,
when the actual encoder format is non-empty, the requested format has no
influence on the emitted file at all. -/
theorem C3_finalization_format_resolution (now : Int) (s : RecState)
    (hch : s.recordedChunks ≠ []) :
    emittedFiles (handleStop now s).2 =
      [{ id := toString now,
         name := "recording-" ++ toString now ++ "." ++
           specFileExtension
             (specResolvedFormat ((s.mediaRecorder.map MediaRecorderHandle.mimeType).getD "")
               s.activeMimeType (decide (s.captureMode = some CaptureMode.audioOnly)))
             (decide (s.captureMode = some CaptureMode.audioOnly)),
         fileType := if s.captureMode = some CaptureMode.audioOnly then "audio" else "video",
         blobType := specResolvedFormat
           ((s.mediaRecorder.map MediaRecorderHandle.mimeType).getD "")
           s.activeMimeType (decide (s.captureMode = some CaptureMode.audioOnly)),
         durationMs := some (now - s.startTime) }] ∧
    ((s.mediaRecorder.map MediaRecorderHandle.mimeType).getD "" ≠ "" →
      ∀ r2 : String, emittedFiles (handleStop now { s with activeMimeType := r2 }).2 =
        emittedFiles (handleStop now s).2) := by
  refine ⟨handleStop_emits now s hch, ?_⟩
  intro hne r2
  rw [handleStop_emits now { s with activeMimeType := r2 } hch,
      handleStop_emits now s hch]
  rw [specResolvedFormat_ignores_requested _ r2 s.activeMimeType _ hne]

/-- A finalization state for the spec's scenario: requested `video/webm`,
encoder actually negotiated `video/mp4`. -/
def c3State : RecState :=
  { busyState with
    captureMode := some CaptureMode.screenVideo,
    mediaRecorder := some ⟨"video/mp4", EncoderState.recording⟩,
    activeMimeType := "video/webm", recordedChunks := [2048], startTime := 0 }

/-- Witness for C3: requested webm but negotiated mp4 gives a `.mp4` name
and an mp4 blob type, and changing the requested format does not change the
emitted file. -/
theorem C3_finalization_format_resolution_witness :
    c3State.recordedChunks ≠ [] ∧
    emittedFiles (handleStop 7000 c3State).2 =
      [{ id := "7000", name := "recording-7000.mp4", fileType := "video",
         blobType := "video/mp4", durationMs := some 7000 }] ∧
    emittedFiles (handleStop 7000 { c3State with activeMimeType := "audio/ogg" }).2 =
      emittedFiles (handleStop 7000 c3State).2 :=
  ⟨by decide,
   ((C3_finalization_format_resolution 7000 c3State (by decide)).1).trans (by decide),
   (C3_finalization_format_resolution 7000 c3State (by decide)).2 (by decide) "audio/ogg"⟩

/-- **C10.** A `takeScreenshot` call that completes successfully (screen
stream granted, drawing context available, encoding succeeded) produces
exactly the trace: acquisition request, then a stop of every track of the
acquired screen stream, then the image encoding, then the single emitted
`CapturedFile` — so every screen track is stopped before the completion
callback fires and exactly one file is emitted.  The file has kind image,
carries no duration, and its name ends in `.jpeg` when the jpeg format was
requested and in `.png` otherwise; the recorder state is untouched. -/
theorem C10_screenshot_success (settings : ScreenshotSettings) (env : ScreenshotEnv)
    (now : Int) (s : RecState) (strm : MediaStream)
    (hok : env.displayMedia = Except.ok strm)
    (hctx : env.contextOk = true) (hblob : env.toBlobOk = true) :
    ∃ f : CapturedFile,
      (takeScreenshot settings env now s).2 =
        [Event.reqDisplayMedia true false] ++
          strm.tracks.map (fun t => Event.stopTrack t.id) ++
          [Event.encodeImage
            (if settings.imageFormat = some ImageFormat.jpeg then "image/jpeg" else "image/png")
            (settings.jpegQuality.getD ((9 : Rat) / 10))] ++
          [Event.emitFile f] ∧
      emittedFiles (takeScreenshot settings env now s).2 = [f] ∧
      f.fileType = "image" ∧ f.durationMs = none ∧
      (settings.imageFormat = some ImageFormat.jpeg →
        f.name = "screenshot-" ++ toString now ++ ".jpeg") ∧
      (settings.imageFormat ≠ some ImageFormat.jpeg →
        f.name = "screenshot-" ++ toString now ++ ".png") ∧
      (takeScreenshot settings env now s).1 = s := by
  refine ⟨{ id := toString now,
            name := "screenshot-" ++ toString now ++ "." ++
              (match settings.imageFormat with | some fmt => fmt.str | none => "png"),
            fileType := "image",
            blobType := if settings.imageFormat = some ImageFormat.jpeg
              then "image/jpeg" else "image/png",
            durationMs := none }, ?_, ?_, rfl, rfl, ?_, ?_, ?_⟩
  · unfold takeScreenshot
    rw [hok]
    simp [hctx, hblob]
  · unfold takeScreenshot
    rw [hok]
    simp [hctx, hblob, emittedFiles, eventFile, List.filterMap_append, List.filterMap_map,
          Function.comp, List.filterMap_eq_nil_iff]
  · intro hj
    rw [hj, String.append_assoc]
    rfl
  · intro hj
    match hf : settings.imageFormat with
    | none => rw [String.append_assoc]; rfl
    | some ImageFormat.png => rw [String.append_assoc]; rfl
    | some ImageFormat.jpeg => exact absurd hf hj
  · unfold takeScreenshot
    rw [hok]
    simp [hctx, hblob]

/-- Screenshot settings of the spec scenario: jpeg at quality 1/2. -/
def shotSettings : ScreenshotSettings := ⟨some ImageFormat.jpeg, some ((1 : Rat) / 2)⟩

/-- A screen stream with a single video track (id 7). -/
def shotStream : MediaStream := ⟨[⟨7, TrackKind.video⟩]⟩

/-- A fully granted screenshot environment reporting 800x600. -/
def shotEnv : ScreenshotEnv :=
  { displayMedia := Except.ok shotStream, videoWidth := 800, videoHeight := 600,
    contextOk := true, toBlobOk := true }

/-- Witness for C10: jpeg screenshot at quality 1/2 on a granted 800x600
screen stream with track 7. -/
theorem C10_screenshot_success_witness :
    shotEnv.displayMedia = Except.ok shotStream ∧
    shotEnv.contextOk = true ∧ shotEnv.toBlobOk = true ∧
    ∃ f : CapturedFile,
      emittedFiles (takeScreenshot shotSettings shotEnv 42 idleState).2 = [f] ∧
      f.fileType = "image" ∧ f.durationMs = none ∧ f.name = "screenshot-42.jpeg" ∧
      (takeScreenshot shotSettings shotEnv 42 idleState).2 =
        [Event.reqDisplayMedia true false] ++
          shotStream.tracks.map (fun t => Event.stopTrack t.id) ++
          [Event.encodeImage "image/jpeg" (shotSettings.jpegQuality.getD ((9 : Rat) / 10))] ++
          [Event.emitFile f] := by
  obtain ⟨f, h1, h2, h3, h4, h5, h6, h7⟩ :=
    C10_screenshot_success shotSettings shotEnv 42 idleState shotStream rfl rfl rfl
  exact ⟨rfl, rfl, rfl, f, h2, h3, h4, h5 rfl, h1⟩

/-- `cleanup` never issues a microphone request. -/
theorem mic_not_in_cleanup (s : RecState) :
    Event.reqUserMediaAudio ∉ (cleanup s).2 := by
  obtain ⟨st, er, ti, mr, str, rc, tia, cm, stt, amt, cc⟩ := s
  unfold cleanup
  cases str <;> cases tia <;> simp

/-- With the microphone toggle off, the screen-and-cam acquisition branch
never issues a microphone request, whatever the environment answers. -/
theorem mic_not_in_screenAndCam (settings : CaptureSettings) (env : AcqEnv) (s : RecState)
    (hmic : settings.includeMic = false) :
    Event.reqUserMediaAudio ∉ (acquireScreenAndCam settings env s).2.1 := by
  unfold acquireScreenAndCam
  cases hd : env.displayMedia with
  | error e => simp
  | ok strm =>
    cases hc : env.camera <;>
      cases hv : strm.getVideoTracks <;>
        simp [hmic, hv]

/-- With the microphone toggle off and a mode other than audio-only, the
standard acquisition branch never issues a microphone request. -/
theorem mic_not_in_standard (settings : CaptureSettings) (env : AcqEnv) (s : RecState)
    (hmic : settings.includeMic = false) (hmode : settings.mode ≠ CaptureMode.audioOnly) :
    Event.reqUserMediaAudio ∉ (acquireStandard settings env s).2.1 := by
  unfold acquireStandard
  simp only [hmic, hmode, Bool.false_eq_true, false_or, or_false, if_false, if_neg,
             not_false_iff]
  by_cases hscr : jsIncludes settings.mode.str "screen" = true
  · simp only [hscr, if_pos]
    cases hd : env.displayMedia with
    | error e => simp
    | ok vstream =>
      cases hv : vstream.getVideoTracks with
      | nil => simp [hv]
      | cons t rest =>
        by_cases ht : vstream.getTracks = []
        · simp [hv, ht]
        · simp [hv, ht]
  · simp [hscr]

/-- The encoder/timer tail issues no microphone request. -/
theorem mic_not_in_encoder (settings : CaptureSettings) (env : AcqEnv) (now : Int)
    (fs : MediaStream) (s : RecState) :
    Event.reqUserMediaAudio ∉ (startEncoderAndTimer settings env now fs s).2.1 := by
  unfold startEncoderAndTimer startTimer
  cases env.newRecorder <;> simp

/-- The whole try block of `startRecording` issues no microphone request
when the microphone toggle is off and the mode is not audio-only. -/
theorem mic_not_in_attempt (settings : CaptureSettings) (env : AcqEnv) (now : Int)
    (s2 : RecState)
    (hmic : settings.includeMic = false) (hmode : settings.mode ≠ CaptureMode.audioOnly) :
    Event.reqUserMediaAudio ∉ (startAttempt settings env now s2).2.1 := by
  have hacq : Event.reqUserMediaAudio ∉ (acquireStreams settings env s2).2.1 := by
    unfold acquireStreams
    by_cases hsc : settings.mode = CaptureMode.screenAndCam
    · simp only [hsc, if_pos]
      exact mic_not_in_screenAndCam settings env s2 hmic
    · simp only [hsc, if_neg, not_false_iff]
      exact mic_not_in_standard settings env s2 hmic hmode
  unfold startAttempt
  rcases h : acquireStreams settings env s2 with ⟨s3, evA, r⟩
  rw [h] at hacq
  simp only at hacq
  cases r with
  | error e => simpa using hacq
  | ok fs =>
    have henc := mic_not_in_encoder settings env now fs s3
    show Event.reqUserMediaAudio ∉ evA ++ (startEncoderAndTimer settings env now fs s3).2.1
    simp [List.mem_append, hacq, henc]

/-- **C9.** For every settings value with `includeMic` false and a mode
other than audio-only, a `startRecording` run never issues a microphone
(user-media audio) acquisition request — for any environment, hence in
particular even when `includeSystemAudio` is true: system audio travels
only inside the screen-capture request (`reqDisplayMedia`), and the camera
request (`reqUserMediaCamera`, issued with `audio: false` in the source) is
not a microphone request. -/
theorem C9_no_mic_request (settings : CaptureSettings) (env : AcqEnv) (now : Int) (s : RecState)
    (hmic : settings.includeMic = false) (hmode : settings.mode ≠ CaptureMode.audioOnly) :
    Event.reqUserMediaAudio ∉ (startRecording settings env now s).2 := by
  unfold startRecording
  split
  · simp
  · rcases h : startAttempt settings env now (acquiringStateOf settings s) with ⟨s3, evA, r⟩
    have hA := mic_not_in_attempt settings env now (acquiringStateOf settings s) hmic hmode
    rw [h] at hA
    simp only at hA
    cases r with
    | none =>
      show Event.reqUserMediaAudio ∉ (cleanup s).2 ++ evA
      simp [List.mem_append, hA, mic_not_in_cleanup s]
    | some e =>
      show Event.reqUserMediaAudio ∉ (handleStartError e s3 ((cleanup s).2 ++ evA)).2
      have hc3 := mic_not_in_cleanup s3
      have hcs := mic_not_in_cleanup s
      unfold handleStartError
      split
      split <;> simp_all [List.mem_append]

/-- Settings with system audio on but microphone off. -/
def sysAudioNoMicSettings : CaptureSettings :=
  { svSettings with includeSystemAudio := true }

/-- Witness for C9: with system audio requested, microphone off, and an
environment that would grant everything, the full start trace contains no
microphone request. -/
theorem C9_no_mic_request_witness :
    sysAudioNoMicSettings.includeMic = false ∧
    sysAudioNoMicSettings.mode ≠ CaptureMode.audioOnly ∧
    Event.reqUserMediaAudio ∉ (startRecording sysAudioNoMicSettings scEnv 0 idleState).2 :=
  ⟨rfl, by decide, C9_no_mic_request sysAudioNoMicSettings scEnv 0 idleState rfl (by decide)⟩

/-- Track-stop events emit no file. -/
theorem emittedFiles_stopTracks (l : List MediaTrack) :
    emittedFiles (l.map (fun t => Event.stopTrack t.id)) = [] := by
  simp [emittedFiles, List.filterMap_map, Function.comp, eventFile,
        List.filterMap_eq_nil_iff]

/-- `emittedFiles` distributes over trace concatenation. -/
theorem emittedFiles_append (a b : List Event) :
    emittedFiles (a ++ b) = emittedFiles a ++ emittedFiles b := by
  simp [emittedFiles]

/-- The screen-and-cam acquisition branch emits no file. -/
theorem emittedFiles_screenAndCam (settings : CaptureSettings) (env : AcqEnv) (s : RecState) :
    emittedFiles (acquireScreenAndCam settings env s).2.1 = [] := by
  unfold acquireScreenAndCam
  repeat' split
  all_goals simp_all [emittedFiles, eventFile, List.filterMap_append, List.filterMap_map,
    Function.comp, List.filterMap_eq_nil_iff]

/-- The standard acquisition branch emits no file. -/
theorem emittedFiles_standard (settings : CaptureSettings) (env : AcqEnv) (s : RecState) :
    emittedFiles (acquireStandard settings env s).2.1 = [] := by
  unfold acquireStandard
  repeat' split
  all_goals
    simp_all [emittedFiles, eventFile, List.filterMap_append, List.filterMap_map,
      Function.comp, List.filterMap_eq_nil_iff]
  all_goals
    split <;>
      simp_all [emittedFiles, eventFile, List.filterMap_append, List.filterMap_map,
        Function.comp, List.filterMap_eq_nil_iff]

/-- The encoder/timer tail emits no file. -/
theorem emittedFiles_encoder (settings : CaptureSettings) (env : AcqEnv) (now : Int)
    (fs : MediaStream) (s : RecState) :
    emittedFiles (startEncoderAndTimer settings env now fs s).2.1 = [] := by
  unfold startEncoderAndTimer startTimer
  cases env.newRecorder <;> simp [emittedFiles, eventFile]

/-- The whole try block of `startRecording` emits no file. -/
theorem emittedFiles_attempt (settings : CaptureSettings) (env : AcqEnv) (now : Int)
    (s2 : RecState) :
    emittedFiles (startAttempt settings env now s2).2.1 = [] := by
  have hacq : emittedFiles (acquireStreams settings env s2).2.1 = [] := by
    unfold acquireStreams
    split
    · exact emittedFiles_screenAndCam settings env s2
    · exact emittedFiles_standard settings env s2
  unfold startAttempt
  rcases h : acquireStreams settings env s2 with ⟨s3, evA, r⟩
  rw [h] at hacq
  simp only at hacq
  cases r with
  | error e => simpa using hacq
  | ok fs =>
    show emittedFiles (evA ++ (startEncoderAndTimer settings env now fs s3).2.1) = []
    simp [emittedFiles_append, hacq, emittedFiles_encoder]

/-- The mixing step never touches the error field. -/
theorem combinedAudio_error (env : AcqEnv) (scr : MediaStream) (mic : Option MediaStream)
    (s : RecState) :
    (combinedAudio env scr mic s).2.error = s.error := by
  unfold combinedAudio mixAudioTracks
  repeat' split
  all_goals rfl

/-- The screen-and-cam acquisition branch never touches the error field. -/
theorem acquireScreenAndCam_error (settings : CaptureSettings) (env : AcqEnv) (s : RecState) :
    (acquireScreenAndCam settings env s).1.error = s.error := by
  unfold acquireScreenAndCam
  cases hd : env.displayMedia with
  | error e => rfl
  | ok strm =>
    cases hc : env.camera <;>
      cases hv : strm.getVideoTracks <;>
        simp [hv, setupVideoComposition, combinedAudio_error]

/-- The standard acquisition branch returns the state unchanged. -/
theorem acquireStandard_state (settings : CaptureSettings) (env : AcqEnv) (s : RecState) :
    (acquireStandard settings env s).1 = s := by
  unfold acquireStandard
  repeat' split
  all_goals try rfl
  all_goals simp [apply_ite]

/-- The encoder/timer tail never touches the error field. -/
theorem startEncoderAndTimer_error (settings : CaptureSettings) (env : AcqEnv) (now : Int)
    (fs : MediaStream) (s : RecState) :
    (startEncoderAndTimer settings env now fs s).1.error = s.error := by
  unfold startEncoderAndTimer startTimer
  cases env.newRecorder <;> rfl

/-- The whole try block never touches the error field. -/
theorem startAttempt_error_field (settings : CaptureSettings) (env : AcqEnv) (now : Int)
    (s2 : RecState) :
    (startAttempt settings env now s2).1.error = s2.error := by
  have hstreams : (acquireStreams settings env s2).1.error = s2.error := by
    unfold acquireStreams
    split
    · exact acquireScreenAndCam_error settings env s2
    · rw [acquireStandard_state]
  unfold startAttempt
  rcases h : acquireStreams settings env s2 with ⟨s3, evA, r⟩
  rw [h] at hstreams
  simp only at hstreams
  cases r with
  | error e => exact hstreams
  | ok fs =>
    show (startEncoderAndTimer settings env now fs s3).1.error = s2.error
    rw [startEncoderAndTimer_error, hstreams]

/-- **C4.** Whenever the try block of a `startRecording` run throws an error
`e` (during acquisition or encoder start), no `CapturedFile` is emitted and
cleanup runs (no stream, no encoder, no interval, no callbacks, no chunks
remain); if `e` is recognized as a user permission denial or cancellation
(by name `NotAllowedError`/`PermissionDeniedError` or a denial/cancellation
phrase in the lowercased message) the controller returns to status `idle`
with no error message, and for any other error it enters status `error`
with the human-readable message surfaced. -/
theorem C4_error_classification (settings : CaptureSettings) (env : AcqEnv) (now : Int) (s : RecState)
    (e : JsError)
    (hs : ¬(s.status = RecorderStatus.recording ∨ s.status = RecorderStatus.acquiring))
    (hfail : (startAttempt settings env now (acquiringStateOf settings s)).2.2 = some e) :
    emittedFiles (startRecording settings env now s).2 = [] ∧
    (startRecording settings env now s).1.stream = none ∧
    (startRecording settings env now s).1.mediaRecorder = none ∧
    (startRecording settings env now s).1.timerIntervalActive = false ∧
    (startRecording settings env now s).1.cleanupCallbacks = [] ∧
    (startRecording settings env now s).1.recordedChunks = [] ∧
    (isPermissionError e = true →
      (startRecording settings env now s).1.status = RecorderStatus.idle ∧
      (startRecording settings env now s).1.error = none) ∧
    (isPermissionError e = false →
      (startRecording settings env now s).1.status = RecorderStatus.error ∧
      (startRecording settings env now s).1.error =
        some ("Failed to start recording: " ++ e.message)) := by
  have herr := startAttempt_error_field settings env now (acquiringStateOf settings s)
  have hemit := emittedFiles_attempt settings env now (acquiringStateOf settings s)
  unfold startRecording
  rw [if_neg hs]
  rcases h : startAttempt settings env now (acquiringStateOf settings s) with ⟨s3, evA, r⟩
  rw [h] at hfail herr hemit
  simp only at hfail herr hemit
  subst hfail
  have herr3 : s3.error = none := by
    rw [herr]
    rfl
  show emittedFiles (handleStartError e s3 ((cleanup s).2 ++ evA)).2 = [] ∧
    (handleStartError e s3 ((cleanup s).2 ++ evA)).1.stream = none ∧
    (handleStartError e s3 ((cleanup s).2 ++ evA)).1.mediaRecorder = none ∧
    (handleStartError e s3 ((cleanup s).2 ++ evA)).1.timerIntervalActive = false ∧
    (handleStartError e s3 ((cleanup s).2 ++ evA)).1.cleanupCallbacks = [] ∧
    (handleStartError e s3 ((cleanup s).2 ++ evA)).1.recordedChunks = [] ∧
    (isPermissionError e = true →
      (handleStartError e s3 ((cleanup s).2 ++ evA)).1.status = RecorderStatus.idle ∧
      (handleStartError e s3 ((cleanup s).2 ++ evA)).1.error = none) ∧
    (isPermissionError e = false →
      (handleStartError e s3 ((cleanup s).2 ++ evA)).1.status = RecorderStatus.error ∧
      (handleStartError e s3 ((cleanup s).2 ++ evA)).1.error =
        some ("Failed to start recording: " ++ e.message))
  have hdef : handleStartError e s3 ((cleanup s).2 ++ evA) =
      (if isPermissionError e = true then
        ({ (cleanup s3).1 with status := RecorderStatus.idle },
         ((cleanup s).2 ++ evA) ++ (cleanup s3).2)
      else
        ({ (cleanup s3).1 with
             status := RecorderStatus.error,
             error := some ("Failed to start recording: " ++ e.message) },
         ((cleanup s).2 ++ evA) ++ (cleanup s3).2)) := rfl
  rw [hdef]
  by_cases hp : isPermissionError e = true
  · rw [if_pos hp]
    refine ⟨?_, rfl, rfl, rfl, rfl, rfl, fun _ => ⟨rfl, herr3⟩,
            fun hq => by rw [hq] at hp; simp at hp⟩
    simp [emittedFiles_append, emittedFiles_cleanup, hemit]
  · rw [if_neg hp]
    refine ⟨?_, rfl, rfl, rfl, rfl, rfl, fun hq => absurd hq hp, fun _ => ⟨rfl, rfl⟩⟩
    simp [emittedFiles_append, emittedFiles_cleanup, hemit]

/-- Settings for an audio-only session. -/
def audioSettings : CaptureSettings :=
  { svSettings with mode := CaptureMode.audioOnly }

/-- Environment where the microphone prompt is denied by the user. -/
def deniedEnv : AcqEnv :=
  { scEnv with mic := Except.error ⟨"NotAllowedError", "Permission denied"⟩ }

/-- Environment where the microphone fails for a non-permission reason. -/
def failEnv : AcqEnv :=
  { scEnv with mic := Except.error ⟨"NotReadableError", "Device in use"⟩ }

/-- Witness for C4, covering the spec's audio-only scenario twice: a denial
signal sends the controller back to `idle` with no message, a genuine
failure sends it to `error` with the message surfaced; neither emits a
file. -/
theorem C4_error_classification_witness :
    (startAttempt audioSettings deniedEnv 0 (acquiringStateOf audioSettings idleState)).2.2 =
      some ⟨"NotAllowedError", "Permission denied"⟩ ∧
    (startRecording audioSettings deniedEnv 0 idleState).1.status = RecorderStatus.idle ∧
    (startRecording audioSettings deniedEnv 0 idleState).1.error = none ∧
    emittedFiles (startRecording audioSettings deniedEnv 0 idleState).2 = [] ∧
    (startAttempt audioSettings failEnv 0 (acquiringStateOf audioSettings idleState)).2.2 =
      some ⟨"NotReadableError", "Device in use"⟩ ∧
    (startRecording audioSettings failEnv 0 idleState).1.status = RecorderStatus.error ∧
    (startRecording audioSettings failEnv 0 idleState).1.error =
      some "Failed to start recording: Device in use" := by
  have h1 := C4_error_classification audioSettings deniedEnv 0 idleState
    ⟨"NotAllowedError", "Permission denied"⟩ (by decide) (by decide)
  have h2 := C4_error_classification audioSettings failEnv 0 idleState
    ⟨"NotReadableError", "Device in use"⟩ (by decide) (by decide)
  refine ⟨by decide,
          (h1.2.2.2.2.2.2.1 (by decide)).1, (h1.2.2.2.2.2.2.1 (by decide)).2, h1.1,
          by decide,
          (h2.2.2.2.2.2.2.2 (by decide)).1,
          ((h2.2.2.2.2.2.2.2 (by decide)).2).trans (by decide)⟩

end ProScreenRecorder
